import Mathlib

/-!
Shallow embedding of `src/homework.py` (fitness tracker module).

The program computes, for a workout sample, its distance, mean speed and
spent calories, and renders a fixed-format report line.  Python floats are
modelled as exact rationals (`ℚ`); Python `%.3f` fixed-point formatting is
modelled as round-half-even on the rational value at three decimal places,
which agrees with CPython on every value considered here (none is within
double-precision error of a `.0005` tie).  Fallible operations are modelled
with `Except`/`Option`.
-/

/-- Embedding of the exception class `InvalidInputDataError`.  The source
wraps the native `KeyError` (unknown workout code) and `TypeError` (argument
count mismatch when calling the class) into this single domain error, so the
two wrapped origins are kept as constructors. -/
inductive InvalidInputDataError where
  | ofKeyError (key : String)
  | ofTypeError
deriving DecidableEq

/-- Embedding of the exception raised by the base class method
`Training.get_spent_calories`. -/
structure NotImplementedError where
  msg : String
deriving DecidableEq

/-- Embedding of the dataclass `InfoMessage` (kind label plus the four
numeric report fields). -/
structure InfoMessage where
  training_type : String
  duration : ℚ
  distance : ℚ
  speed : ℚ
  calories : ℚ
deriving DecidableEq

/-- The character of a decimal digit `n < 10` (code point `48 + n`). -/
def digitChar (n : ℕ) : Char := Char.ofNat (48 + n)

/-- Digit characters of `n`, most significant first, prepended to `acc`.
Structural fuel keeps the recursion kernel-reducible; a fuel of `n + 1` is
always sufficient. -/
def natToCharsAux : ℕ → ℕ → List Char → List Char
  | 0, _, acc => acc
  | fuel + 1, n, acc =>
    if n < 10 then digitChar n :: acc
    else natToCharsAux fuel (n / 10) (digitChar (n % 10) :: acc)

/-- Decimal rendering of a natural number, as Python renders the integral
part of a float. -/
def natRepr (n : ℕ) : String := ⟨natToCharsAux (n + 1) n []⟩

/-- Three-digit zero-padded decimal rendering of `n % 1000`, as Python
renders the fractional part under `%.3f`. -/
def pad3 (n : ℕ) : String :=
  ⟨[digitChar (n / 100 % 10), digitChar (n / 10 % 10), digitChar (n % 10)]⟩

/-- Round a rational to the nearest integer, ties to the even integer, the
rounding CPython applies when formatting a float. -/
def roundHalfEven (q : ℚ) : ℤ :=
  let f : ℤ := ⌊q⌋
  let r : ℚ := q - (f : ℚ)
  if r < 1/2 then f
  else if 1/2 < r then f + 1
  else if f % 2 = 0 then f else f + 1

/-- Embedding of the Python f-string conversion `{x:.3f}`: sign, integral
part, `.`, and exactly three fractional digits obtained by half-even
rounding at the third decimal place. -/
def formatFixed3 (q : ℚ) : String :=
  let m : ℚ := if q < 0 then -q else q
  let n : ℕ := (roundHalfEven (m * 1000)).toNat
  (if q < 0 then "-" else "") ++ natRepr (n / 1000) ++ "." ++ pad3 (n % 1000)

/-- Embedding of `InfoMessage.get_message`: the exact template of the
source, including the `' км.; '` separator (note the period after `км`). -/
def InfoMessage.get_message (m : InfoMessage) : String :=
  "Тип тренировки: " ++ m.training_type
    ++ "; Длительность: " ++ formatFixed3 m.duration
    ++ " ч.; Дистанция: " ++ formatFixed3 m.distance
    ++ " км.; Ср. скорость: " ++ formatFixed3 m.speed
    ++ " км/ч; Потрачено ккал: " ++ formatFixed3 m.calories
    ++ "."

/-- Modelled from the spec, for comparison with `InfoMessage.get_message`:
the output template quoted in §6 of the specification, whose distance
separator is `' км; '` (no period after `км`).  This definition follows the
spec text, not the source. -/
def InfoMessage.get_message_spec (m : InfoMessage) : String :=
  "Тип тренировки: " ++ m.training_type
    ++ "; Длительность: " ++ formatFixed3 m.duration
    ++ " ч.; Дистанция: " ++ formatFixed3 m.distance
    ++ " км; Ср. скорость: " ++ formatFixed3 m.speed
    ++ " км/ч; Потрачено ккал: " ++ formatFixed3 m.calories
    ++ "."

/-- Embedding of the class hierarchy rooted at `Training` as a sum: the
(instantiable) base class and its three subclasses, each with the fields its
`__init__` stores. -/
inductive Training where
  | base (action duration weight : ℚ)
  | running (action duration weight : ℚ)
  | sportsWalking (action duration weight height : ℚ)
  | swimming (action duration weight length_pool count_pool : ℚ)
deriving DecidableEq

/-- Class attribute `Training.LEN_STEP`. -/
def Training.LEN_STEP : ℚ := 0.65

/-- Class attribute `Training.M_IN_KM`. -/
def Training.M_IN_KM : ℚ := 1000

/-- Class attribute `Training.MIN_IN_H`. -/
def Training.MIN_IN_H : ℚ := 60

/-- Class attribute `Running.CALORIES_MEAN_SPEED_MULTIPLIER`. -/
def Running.CALORIES_MEAN_SPEED_MULTIPLIER : ℚ := 18

/-- Class attribute `Running.CALORIES_MEAN_SPEED_SHIFT`. -/
def Running.CALORIES_MEAN_SPEED_SHIFT : ℚ := 1.79

/-- Class attribute `SportsWalking.CALORIES_WEIGHT_MULTIPLIER`. -/
def SportsWalking.CALORIES_WEIGHT_MULTIPLIER : ℚ := 0.035

/-- Class attribute `SportsWalking.CALORIES_SPEED_HEIGHT_MULTIPLIER`. -/
def SportsWalking.CALORIES_SPEED_HEIGHT_MULTIPLIER : ℚ := 0.029

/-- Class attribute `SportsWalking.KMH_IN_MSEC`. -/
def SportsWalking.KMH_IN_MSEC : ℚ := 0.278

/-- Class attribute `SportsWalking.CM_IN_M`. -/
def SportsWalking.CM_IN_M : ℚ := 100

/-- Class attribute `Swimming.LEN_STEP` (overrides the base value). -/
def Swimming.LEN_STEP : ℚ := 1.38

/-- Class attribute `Swimming.CALORIES_MEAN_SPEED_SHIFT`. -/
def Swimming.CALORIES_MEAN_SPEED_SHIFT : ℚ := 1.1

/-- Class attribute `Swimming.CALORIES_MULTIPLIER`. -/
def Swimming.CALORIES_MULTIPLIER : ℚ := 2

/-- Instance field `self.action`. -/
def Training.action : Training → ℚ
  | .base a _ _ => a
  | .running a _ _ => a
  | .sportsWalking a _ _ _ => a
  | .swimming a _ _ _ _ => a

/-- Instance field `self.duration`. -/
def Training.duration : Training → ℚ
  | .base _ d _ => d
  | .running _ d _ => d
  | .sportsWalking _ d _ _ => d
  | .swimming _ d _ _ _ => d

/-- Instance field `self.weight`. -/
def Training.weight : Training → ℚ
  | .base _ _ w => w
  | .running _ _ w => w
  | .sportsWalking _ _ w _ => w
  | .swimming _ _ w _ _ => w

/-- Attribute lookup `self.LEN_STEP`: `Swimming` overrides the class
attribute with `1.38`; every other class inherits `Training.LEN_STEP`. -/
def Training.lenStep : Training → ℚ
  | .swimming _ _ _ _ _ => Swimming.LEN_STEP
  | _ => Training.LEN_STEP

/-- Python `type(self).__name__`, used for the report's kind label. -/
def Training.typeName : Training → String
  | .base _ _ _ => "Training"
  | .running _ _ _ => "Running"
  | .sportsWalking _ _ _ _ => "SportsWalking"
  | .swimming _ _ _ _ _ => "Swimming"

/-- Embedding of `Training.get_distance`
(`self.action * self.LEN_STEP / Training.M_IN_KM`); no subclass overrides
it. -/
def Training.get_distance (t : Training) : ℚ :=
  t.action * t.lenStep / Training.M_IN_KM

/-- Embedding of `get_mean_speed`: `Swimming` overrides the base method
(`self.length_pool * self.count_pool / Training.M_IN_KM / self.duration`);
the other classes use the base body
(`self.get_distance() / self.duration`). -/
def Training.get_mean_speed (t : Training) : ℚ :=
  match t with
  | .swimming _ duration _ length_pool count_pool =>
      length_pool * count_pool / Training.M_IN_KM / duration
  | _ => t.get_distance / t.duration

/-- Embedding of `get_spent_calories` with dynamic dispatch: the base class
raises `NotImplementedError`; each subclass computes its own formula. -/
def Training.get_spent_calories (t : Training) : Except NotImplementedError ℚ :=
  match t with
  | .base _ _ _ =>
      .error ⟨"Необходимо переопределить метод get_spent_calories()"⟩
  | .running _ duration weight =>
      .ok ((Running.CALORIES_MEAN_SPEED_MULTIPLIER * t.get_mean_speed
          + Running.CALORIES_MEAN_SPEED_SHIFT)
        * weight / Training.M_IN_KM * duration * Training.MIN_IN_H)
  | .sportsWalking _ duration weight height =>
      .ok ((SportsWalking.CALORIES_WEIGHT_MULTIPLIER * weight
          + ((t.get_mean_speed * SportsWalking.KMH_IN_MSEC) ^ 2
              / (height / SportsWalking.CM_IN_M))
            * SportsWalking.CALORIES_SPEED_HEIGHT_MULTIPLIER * weight)
        * duration * Training.MIN_IN_H)
  | .swimming _ duration weight _ _ =>
      .ok ((t.get_mean_speed + Swimming.CALORIES_MEAN_SPEED_SHIFT)
        * Swimming.CALORIES_MULTIPLIER * weight * duration)

/-- Embedding of `Training.show_training_info`: builds the `InfoMessage`;
the `NotImplementedError` of an un-overridden `get_spent_calories`
propagates to the caller. -/
def Training.show_training_info (t : Training) :
    Except NotImplementedError InfoMessage :=
  match t.get_spent_calories with
  | .error e => .error e
  | .ok cal =>
      .ok ⟨t.typeName, t.duration, t.get_distance, t.get_mean_speed, cal⟩

/-- Division that records Python's `ZeroDivisionError` as `none`. -/
def divOpt (a b : ℚ) : Option ℚ := if b = 0 then none else some (a / b)

/-- `Training.get_distance` with its division checked. -/
def Training.get_distance? (t : Training) : Option ℚ :=
  divOpt (t.action * t.lenStep) Training.M_IN_KM

/-- `get_mean_speed` with every division checked. -/
def Training.get_mean_speed? (t : Training) : Option ℚ :=
  match t with
  | .swimming _ duration _ length_pool count_pool => do
      divOpt (← divOpt (length_pool * count_pool) Training.M_IN_KM) duration
  | _ => do divOpt (← t.get_distance?) t.duration

/-- `get_spent_calories` with every division checked (`none` both for the
base class and for a `ZeroDivisionError` in a subclass formula). -/
def Training.get_spent_calories? (t : Training) : Option ℚ :=
  match t with
  | .base _ _ _ => none
  | .running _ duration weight => do
      divOpt ((Running.CALORIES_MEAN_SPEED_MULTIPLIER * (← t.get_mean_speed?)
          + Running.CALORIES_MEAN_SPEED_SHIFT) * weight) Training.M_IN_KM
        |>.map (· * duration * Training.MIN_IN_H)
  | .sportsWalking _ duration weight height => do
      let ms ← t.get_mean_speed?
      let hm ← divOpt height SportsWalking.CM_IN_M
      let v ← divOpt ((ms * SportsWalking.KMH_IN_MSEC) ^ 2) hm
      some ((SportsWalking.CALORIES_WEIGHT_MULTIPLIER * weight
          + v * SportsWalking.CALORIES_SPEED_HEIGHT_MULTIPLIER * weight)
        * duration * Training.MIN_IN_H)
  | .swimming _ duration weight _ _ => do
      some (((← t.get_mean_speed?) + Swimming.CALORIES_MEAN_SPEED_SHIFT)
        * Swimming.CALORIES_MULTIPLIER * weight * duration)

/-- The workout kinds keyed by the dispatch table. -/
inductive WorkoutKind where
  | running
  | sportsWalking
  | swimming
deriving DecidableEq

/-- Embedding of the dispatch dictionary `WORKOUT_CODES`, as the
association list of its items. -/
def WORKOUT_CODES : List (String × WorkoutKind) :=
  [("RUN", .running), ("WLK", .sportsWalking), ("SWM", .swimming)]

/-- Embedding of the call `cls(*data)`: Python raises `TypeError` when the
number of positional arguments does not match the arity of the class's
`__init__`, and otherwise constructs the instance. -/
def initWorkout (k : WorkoutKind) (data : List ℚ) :
    Except InvalidInputDataError Training :=
  match k, data with
  | .running, [a, d, w] => .ok (.running a d w)
  | .sportsWalking, [a, d, w, h] => .ok (.sportsWalking a d w h)
  | .swimming, [a, d, w, l, c] => .ok (.swimming a d w l c)
  | _, _ => .error .ofTypeError

/-- Embedding of `read_package`: dictionary lookup
(`WORKOUT_CODES[workout_type]`, whose `KeyError` is wrapped) followed by the
class call (whose `TypeError` is wrapped); both surface as
`InvalidInputDataError`. -/
def read_package (workout_type : String) (data : List ℚ) :
    Except InvalidInputDataError Training :=
  match WORKOUT_CODES.lookup workout_type with
  | none => .error (.ofKeyError workout_type)
  | some k => initWorkout k data

/-- A string of the shape `%.3f` produces: some integral part carrying no
decimal point, one `.`, then exactly three decimal digits. -/
def isFixed3Field (s : String) : Prop :=
  ∃ ip fp : String, s = ip ++ "." ++ fp ∧ fp.length = 3
    ∧ (∀ c ∈ fp.data, c.isDigit = true)
    ∧ (∀ c ∈ ip.data, c ≠ '.')

/-! Helper lemmas about the formatter. -/

/-- A digit below ten renders as a decimal digit character. -/
theorem digitChar_isDigit {n : ℕ} (h : n < 10) : (digitChar n).isDigit = true := by
  interval_cases n <;> decide

/-- Every character `natToCharsAux` emits over a digit-only accumulator is a
decimal digit. -/
theorem natToCharsAux_digits (fuel : ℕ) :
    ∀ n acc, (∀ c ∈ acc, c.isDigit = true) →
      ∀ c ∈ natToCharsAux fuel n acc, c.isDigit = true := by
  induction fuel with
  | zero => intro n acc hacc c hc; exact hacc c hc
  | succ fuel ih =>
    intro n acc hacc c hc
    unfold natToCharsAux at hc
    by_cases hn : n < 10
    · rw [if_pos hn] at hc
      rcases List.mem_cons.mp hc with rfl | hc
      · exact digitChar_isDigit hn
      · exact hacc c hc
    · rw [if_neg hn] at hc
      refine ih (n / 10) _ ?_ c hc
      intro c2 hc2
      rcases List.mem_cons.mp hc2 with rfl | hc2
      · exact digitChar_isDigit (Nat.mod_lt _ (by norm_num))
      · exact hacc c2 hc2

/-- Every character of `natRepr n` is a decimal digit. -/
theorem natRepr_digits (n : ℕ) : ∀ c ∈ (natRepr n).data, c.isDigit = true :=
  natToCharsAux_digits (n + 1) n [] (by intro c hc; cases hc)

/-- Every character of `pad3 n` is a decimal digit. -/
theorem pad3_digits (n : ℕ) : ∀ c ∈ (pad3 n).data, c.isDigit = true := by
  intro c hc
  rw [show (pad3 n).data
      = [digitChar (n / 100 % 10), digitChar (n / 10 % 10), digitChar (n % 10)] from rfl] at hc
  simp only [List.mem_cons, List.not_mem_nil, or_false] at hc
  rcases hc with rfl | rfl | rfl <;>
    exact digitChar_isDigit (Nat.mod_lt _ (by norm_num))

/-- Appending two decimal-point-free strings yields one. -/
theorem append_no_dot {s t : String} (hs : ∀ c ∈ s.data, c ≠ '.')
    (ht : ∀ c ∈ t.data, c ≠ '.') : ∀ c ∈ (s ++ t).data, c ≠ '.' := by
  intro c hc
  rw [String.data_append] at hc
  rcases List.mem_append.mp hc with hc | hc
  · exact hs c hc
  · exact ht c hc

/-- The sign part emitted by `formatFixed3` carries no decimal point. -/
theorem sign_no_dot (q : ℚ) :
    ∀ c ∈ (if q < 0 then "-" else "" : String).data, c ≠ '.' := by
  by_cases hq : q < 0
  · rw [if_pos hq]
    intro c hc
    rw [show ("-" : String).data = ['-'] from rfl, List.mem_singleton] at hc
    subst hc; decide
  · rw [if_neg hq]
    intro c hc
    rw [show ("" : String).data = [] from rfl] at hc
    exact absurd hc (List.not_mem_nil c)

/-- The integral part emitted by `formatFixed3` carries no decimal point. -/
theorem natRepr_no_dot (k : ℕ) : ∀ c ∈ (natRepr k).data, c ≠ '.' := by
  intro c hc he
  have hd := natRepr_digits k c hc
  rw [he] at hd
  exact absurd hd (by decide)

/-- `formatFixed3` always outputs an integral part, a point, and exactly
three decimal digits. -/
theorem formatFixed3_isFixed3Field (q : ℚ) : isFixed3Field (formatFixed3 q) :=
  ⟨_, _, rfl, rfl, pad3_digits _, append_no_dot (sign_no_dot q) (natRepr_no_dot _)⟩

/-- Evaluation rule for `formatFixed3` on a non-negative rational whose
scaled rounding is known. -/
theorem formatFixed3_of_nonneg (q : ℚ) (n : ℕ) (h0 : ¬ q < 0)
    (h : roundHalfEven (q * 1000) = (n : ℤ)) :
    formatFixed3 q = natRepr (n / 1000) ++ "." ++ pad3 (n % 1000) := by
  unfold formatFixed3
  simp only [if_neg h0, h, Int.toNat_natCast]
  rw [String.ext_iff]
  simp [String.data_append]

/-- `1` renders as `1.000`. -/
theorem formatFixed3_one : formatFixed3 (1 : ℚ) = "1.000" := by
  rw [formatFixed3_of_nonneg 1 1000 (by norm_num) (by norm_num [roundHalfEven])]
  decide

/-- `621/625 = 0.9936` rounds half-even at the third decimal to `0.994`. -/
theorem formatFixed3_swm_distance : formatFixed3 (621/625 : ℚ) = "0.994" := by
  rw [formatFixed3_of_nonneg (621/625) 994 (by norm_num) (by norm_num [roundHalfEven])]
  decide

/-- `336` renders as `336.000`. -/
theorem formatFixed3_336 : formatFixed3 (336 : ℚ) = "336.000" := by
  rw [formatFixed3_of_nonneg 336 336000 (by norm_num) (by norm_num [roundHalfEven])]
  decide

/-- Unfolding of `get_message` on an explicit `InfoMessage`. -/
theorem get_message_mk (ty : String) (d di s c : ℚ) :
    (InfoMessage.mk ty d di s c).get_message
      = "Тип тренировки: " ++ ty ++ "; Длительность: " ++ formatFixed3 d
        ++ " ч.; Дистанция: " ++ formatFixed3 di ++ " км.; Ср. скорость: "
        ++ formatFixed3 s ++ " км/ч; Потрачено ккал: " ++ formatFixed3 c
        ++ "." := rfl

/-- Unfolding of the spec-template variant on an explicit `InfoMessage`. -/
theorem get_message_spec_mk (ty : String) (d di s c : ℚ) :
    (InfoMessage.mk ty d di s c).get_message_spec
      = "Тип тренировки: " ++ ty ++ "; Длительность: " ++ formatFixed3 d
        ++ " ч.; Дистанция: " ++ formatFixed3 di ++ " км; Ср. скорость: "
        ++ formatFixed3 s ++ " км/ч; Потрачено ккал: " ++ formatFixed3 c
        ++ "." := rfl

/-! The claims. -/

/-- C1: for every valid Running sample (any action count, positive duration,
positive weight), the computed distance in km equals
`action_count * 0.65 / 1000`. -/
theorem c1_running_distance (a d w : ℚ) (_hd : 0 < d) (_hw : 0 < w) :
    (Training.running a d w).get_distance = a * 0.65 / 1000 := by
  simp [Training.get_distance, Training.action, Training.lenStep,
    Training.LEN_STEP, Training.M_IN_KM]

/-- C1 witness: the Running distance formula at the sample
`(15000, 1, 1)`. -/
theorem c1_running_distance_witness :
    (Training.running 15000 1 1).get_distance = 15000 * 0.65 / 1000 :=
  c1_running_distance 15000 1 1 one_pos one_pos

/-- C2: for every valid Swimming sample the mean speed equals
`pool_length * lap_count / 1000 / duration`, and it does not depend on the
action count. -/
theorem c2_swimming_mean_speed (a a2 d w l c : ℚ) (_hd : 0 < d) :
    (Training.swimming a d w l c).get_mean_speed = l * c / 1000 / d
    ∧ (Training.swimming a2 d w l c).get_mean_speed
        = (Training.swimming a d w l c).get_mean_speed := by
  constructor <;> simp [Training.get_mean_speed, Training.M_IN_KM]

/-- C2 witness: the Swimming mean-speed formula and action-independence on
the samples `(720, 1, 80, 25, 40)` and `(999, 1, 80, 25, 40)`. -/
theorem c2_swimming_mean_speed_witness :
    (Training.swimming 720 1 80 25 40).get_mean_speed = 25 * 40 / 1000 / 1
    ∧ (Training.swimming 999 1 80 25 40).get_mean_speed
        = (Training.swimming 720 1 80 25 40).get_mean_speed :=
  c2_swimming_mean_speed 720 999 1 80 25 40 one_pos

/-- C3: dispatching any workout code other than RUN, WLK, SWM yields the
unified domain error (the wrapped `KeyError`), never an uncaught crash and
never a `Training` value. -/
theorem c3_unknown_code (workout_type : String) (data : List ℚ)
    (h1 : workout_type ≠ "RUN") (h2 : workout_type ≠ "WLK")
    (h3 : workout_type ≠ "SWM") :
    read_package workout_type data = .error (.ofKeyError workout_type) := by
  unfold read_package
  rw [show WORKOUT_CODES.lookup workout_type = none by
    simp [WORKOUT_CODES, List.lookup, beq_eq_false_iff_ne.mpr h1,
      beq_eq_false_iff_ne.mpr h2, beq_eq_false_iff_ne.mpr h3]]

/-- C3 witness: dispatch on `"XYZ"` yields the unified domain error. -/
theorem c3_unknown_code_witness :
    read_package "XYZ" [1, 2, 3] = .error (.ofKeyError "XYZ") :=
  c3_unknown_code "XYZ" [1, 2, 3] (by decide) (by decide) (by decide)

/-- C4: dispatching a known code with a parameter list whose length does not
match that kind's arity (3 for RUN, 4 for WLK, 5 for SWM) yields the unified
domain error (the wrapped `TypeError`), never a defaulted or truncated
sample. -/
theorem c4_arity_mismatch (workout_type : String) (data : List ℚ)
    (h : (workout_type = "RUN" ∧ data.length ≠ 3)
      ∨ (workout_type = "WLK" ∧ data.length ≠ 4)
      ∨ (workout_type = "SWM" ∧ data.length ≠ 5)) :
    read_package workout_type data = .error .ofTypeError := by
  rcases h with ⟨rfl, hl⟩ | ⟨rfl, hl⟩ | ⟨rfl, hl⟩ <;>
    rcases data with _ | ⟨a, _ | ⟨b, _ | ⟨c, _ | ⟨d, _ | ⟨e, _ | ⟨f, tl⟩⟩⟩⟩⟩⟩ <;>
    first
      | rfl
      | exact absurd (by simp) hl

/-- C4 witness: dispatch on `"RUN"` with a 4-element parameter list (one
extra) yields the unified domain error. -/
theorem c4_arity_mismatch_witness :
    read_package "RUN" [15000, 1, 75, 180] = .error .ofTypeError :=
  c4_arity_mismatch "RUN" [15000, 1, 75, 180] (Or.inl ⟨rfl, by decide⟩)

set_option maxRecDepth 8192 in
/-- C5 counterexample: the claim's quoted template writes `' км; '` after
the distance, but the source writes `' км.; '`; at the concrete report
`("Running", 1, 1, 1, 1)` the produced line differs from the spec template's
line, and the spec separator `' км; '` occurs nowhere in the produced line
(while it does occur in the spec-template line). -/
theorem c5_template_counterexample :
    (InfoMessage.mk "Running" 1 1 1 1).get_message
        ≠ (InfoMessage.mk "Running" 1 1 1 1).get_message_spec
    ∧ ¬ (" км; ".data <:+: ((InfoMessage.mk "Running" 1 1 1 1).get_message).data)
    ∧ " км; ".data <:+: ((InfoMessage.mk "Running" 1 1 1 1).get_message_spec).data := by
  rw [get_message_mk, get_message_spec_mk, formatFixed3_one]
  refine ⟨by decide, by decide, by decide⟩

/-- C5 (amended): every formatted output line contains exactly 4 numeric
fields (duration, distance, speed, calories), each rendered with exactly 3
digits after the decimal point, in the fixed field order of the source's
template, whose distance separator is `' км.; '`. -/
theorem c5_message_fields (m : InfoMessage) :
    ∃ s1 s2 s3 s4 : String,
      m.get_message
        = "Тип тренировки: " ++ m.training_type ++ "; Длительность: " ++ s1
          ++ " ч.; Дистанция: " ++ s2 ++ " км.; Ср. скорость: " ++ s3
          ++ " км/ч; Потрачено ккал: " ++ s4 ++ "."
      ∧ isFixed3Field s1 ∧ isFixed3Field s2 ∧ isFixed3Field s3
      ∧ isFixed3Field s4 :=
  ⟨_, _, _, _, rfl, formatFixed3_isFixed3Field _, formatFixed3_isFixed3Field _,
    formatFixed3_isFixed3Field _, formatFixed3_isFixed3Field _⟩

set_option maxRecDepth 8192 in
/-- C6 counterexample: for the input `("SWM", [720, 1, 80, 25, 40])` the
distance `720 * 1.38 / 1000 = 0.9936` is formatted as `0.994`, not `0.993`
as the claim states, and `0.993` occurs nowhere in the report line. -/
theorem c6_distance_format_counterexample :
    (Training.swimming 720 1 80 25 40).show_training_info
        = .ok (InfoMessage.mk "Swimming" 1 (621/625) 1 336)
    ∧ (621/625 : ℚ) = 720 * 1.38 / 1000
    ∧ formatFixed3 (621/625) = "0.994"
    ∧ ("0.994" : String) ≠ "0.993"
    ∧ ¬ ("0.993".data
        <:+: ((InfoMessage.mk "Swimming" 1 (621/625) 1 336).get_message).data) := by
  refine ⟨?_, by norm_num, formatFixed3_swm_distance, by decide, ?_⟩
  · simp [Training.show_training_info, Training.get_spent_calories,
      Training.get_mean_speed, Training.get_distance, Training.lenStep,
      Training.typeName, Training.action, Training.duration, Training.M_IN_KM,
      Swimming.LEN_STEP, Swimming.CALORIES_MEAN_SPEED_SHIFT,
      Swimming.CALORIES_MULTIPLIER]
    norm_num
  · rw [get_message_mk, formatFixed3_one, formatFixed3_swm_distance,
      formatFixed3_336]
    decide

set_option maxRecDepth 8192 in
/-- C6 (amended): end-to-end, the input `("SWM", [720, 1, 80, 25, 40])`
produces a report whose distance `720 * 1.38 / 1000 = 0.9936` is formatted
as `0.994`, whose line contains `Ср. скорость: 1.000 км/ч` (mean speed
`25 * 40 / 1000 / 1 = 1`), and whose calories equal
`(1 + 1.1) * 2 * 80 * 1 = 336`, formatted as `336.000`. -/
theorem c6_swimming_end_to_end :
    read_package "SWM" [720, 1, 80, 25, 40] = .ok (.swimming 720 1 80 25 40)
    ∧ (Training.swimming 720 1 80 25 40).get_distance = 720 * 1.38 / 1000
    ∧ (Training.swimming 720 1 80 25 40).show_training_info
        = .ok (InfoMessage.mk "Swimming" 1 (621/625) 1 336)
    ∧ (621/625 : ℚ) = 720 * 1.38 / 1000
    ∧ formatFixed3 (621/625) = "0.994"
    ∧ "Ср. скорость: 1.000 км/ч".data
        <:+: ((InfoMessage.mk "Swimming" 1 (621/625) 1 336).get_message).data
    ∧ formatFixed3 336 = "336.000"
    ∧ (336 : ℚ) = (1 + 1.1) * 2 * 80 * 1 := by
  refine ⟨rfl, ?_, ?_, by norm_num, formatFixed3_swm_distance, ?_,
    formatFixed3_336, by norm_num⟩
  · simp [Training.get_distance, Training.action, Training.lenStep,
      Swimming.LEN_STEP, Training.M_IN_KM]
  · simp [Training.show_training_info, Training.get_spent_calories,
      Training.get_mean_speed, Training.get_distance, Training.lenStep,
      Training.typeName, Training.action, Training.duration, Training.M_IN_KM,
      Swimming.LEN_STEP, Swimming.CALORIES_MEAN_SPEED_SHIFT,
      Swimming.CALORIES_MULTIPLIER]
    norm_num
  · rw [get_message_mk, formatFixed3_one, formatFixed3_swm_distance,
      formatFixed3_336]
    decide

/-- C7 counterexample: for the input `("RUN", [15000, 1, 75])` the computed
calories are `797.805`, which is not approximately `797.33` as the claim
states (it exceeds `797.33` by more than `0.4`). -/
theorem c7_calories_counterexample :
    (Training.running 15000 1 75).get_spent_calories = .ok 797.805
    ∧ (797.805 : ℚ) ≠ 797.33
    ∧ 797.33 + 4 / 10 < (797.805 : ℚ) := by
  refine ⟨?_, by norm_num, by norm_num⟩
  simp [Training.get_spent_calories, Training.get_mean_speed,
    Training.get_distance, Training.action, Training.duration, Training.weight,
    Training.lenStep, Training.LEN_STEP, Training.M_IN_KM, Training.MIN_IN_H,
    Running.CALORIES_MEAN_SPEED_MULTIPLIER, Running.CALORIES_MEAN_SPEED_SHIFT]
  norm_num

/-- C7 (amended): end-to-end, the input `("RUN", [15000, 1, 75])` produces
distance `15000 * 0.65 / 1000 = 9.75` km, mean speed `9.75` km/h, and
calories `(18 * 9.75 + 1.79) * 75 / 1000 * 1 * 60 = 797.805`. -/
theorem c7_running_end_to_end :
    read_package "RUN" [15000, 1, 75] = .ok (.running 15000 1 75)
    ∧ (Training.running 15000 1 75).get_distance = 9.75
    ∧ (Training.running 15000 1 75).get_mean_speed = 9.75
    ∧ (Training.running 15000 1 75).get_spent_calories
        = .ok ((18 * 9.75 + 1.79) * 75 / 1000 * 1 * 60)
    ∧ ((18 * 9.75 + 1.79) * 75 / 1000 * 1 * 60 : ℚ) = 797.805 := by
  refine ⟨rfl, ?_, ?_, ?_, by norm_num⟩ <;>
    simp [Training.get_distance, Training.get_mean_speed,
      Training.get_spent_calories, Training.action, Training.duration,
      Training.weight, Training.lenStep, Training.LEN_STEP, Training.M_IN_KM,
      Training.MIN_IN_H, Running.CALORIES_MEAN_SPEED_MULTIPLIER,
      Running.CALORIES_MEAN_SPEED_SHIFT] <;>
    norm_num

/-- C8: for every valid SportsWalking sample (positive duration, weight and
height), the computed calories equal
`(0.035 * weight + ((mean_speed * 0.278)^2 / (height / 100)) * 0.029 * weight)
  * duration * 60`
with `mean_speed = action * 0.65 / 1000 / duration`. -/
theorem c8_walking_calories (a d w h : ℚ) (_hd : 0 < d) (_hw : 0 < w)
    (_hh : 0 < h) :
    (Training.sportsWalking a d w h).get_spent_calories
      = .ok ((0.035 * w + ((a * 0.65 / 1000 / d * 0.278) ^ 2 / (h / 100))
            * 0.029 * w) * d * 60) := by
  simp [Training.get_spent_calories, Training.get_mean_speed,
    Training.get_distance, Training.action, Training.duration, Training.lenStep,
    Training.LEN_STEP, Training.M_IN_KM, Training.MIN_IN_H,
    SportsWalking.CALORIES_WEIGHT_MULTIPLIER,
    SportsWalking.CALORIES_SPEED_HEIGHT_MULTIPLIER, SportsWalking.KMH_IN_MSEC,
    SportsWalking.CM_IN_M]

/-- C8 witness: the SportsWalking calorie formula at the sample
`(9000, 1, 75, 180)` of the spec's end-to-end example. -/
theorem c8_walking_calories_witness :
    (Training.sportsWalking 9000 1 75 180).get_spent_calories
      = .ok ((0.035 * 75 + ((9000 * 0.65 / 1000 / 1 * 0.278) ^ 2 / (180 / 100))
            * 0.029 * 75) * 1 * 60) :=
  c8_walking_calories 9000 1 75 180 (by decide) (by decide) (by decide)

/-- C9: with positive duration (and positive height for SportsWalking),
every division of the three kinds' speed and calorie computations has a
non-zero divisor: the checked evaluators return a value. -/
theorem c9_no_division_by_zero (a d w h l c : ℚ) (hd : 0 < d) (hh : 0 < h) :
    ((Training.running a d w).get_mean_speed?).isSome = true
    ∧ ((Training.sportsWalking a d w h).get_mean_speed?).isSome = true
    ∧ ((Training.swimming a d w l c).get_mean_speed?).isSome = true
    ∧ ((Training.sportsWalking a d w h).get_spent_calories?).isSome = true := by
  have h100 : h / SportsWalking.CM_IN_M ≠ 0 :=
    div_ne_zero hh.ne' (by norm_num [SportsWalking.CM_IN_M])
  refine ⟨?_, ?_, ?_, ?_⟩ <;>
    simp [Training.get_mean_speed?, Training.get_spent_calories?,
      Training.get_distance?, divOpt, Training.M_IN_KM, SportsWalking.CM_IN_M,
      Training.duration, Training.action, Training.lenStep, hd.ne', hh.ne',
      h100]

/-- C9 witness: totality of the checked evaluators at duration 1 and
height 1. -/
theorem c9_no_division_by_zero_witness :
    ((Training.running 1 1 1).get_mean_speed?).isSome = true
    ∧ ((Training.sportsWalking 1 1 1 1).get_mean_speed?).isSome = true
    ∧ ((Training.swimming 1 1 1 1 1).get_mean_speed?).isSome = true
    ∧ ((Training.sportsWalking 1 1 1 1).get_spent_calories?).isSome = true :=
  c9_no_division_by_zero 1 1 1 1 1 1 one_pos one_pos

/-- C10: every `Training` that `read_package` returns without an error is an
instance of one of the three concrete kinds, each of which overrides
`get_spent_calories`, so `show_training_info` on such a value never reaches
the `NotImplementedError` branch of the base class. -/
theorem c10_read_package_kinds (workout_type : String) (data : List ℚ)
    (t : Training) (h : read_package workout_type data = .ok t) :
    ((∃ a d w, t = .running a d w) ∨ (∃ a d w ht, t = .sportsWalking a d w ht)
      ∨ (∃ a d w l c, t = .swimming a d w l c))
    ∧ ∃ m, t.show_training_info = .ok m := by
  unfold read_package at h
  rcases hlk : WORKOUT_CODES.lookup workout_type with _ | k
  · rw [hlk] at h; cases h
  · rw [hlk] at h
    cases k with
    | running =>
      rcases data with _ | ⟨a, _ | ⟨d, _ | ⟨w, _ | ⟨x, tl⟩⟩⟩⟩
      · cases h
      · cases h
      · cases h
      · injection h with h2
        subst h2
        exact ⟨Or.inl ⟨a, d, w, rfl⟩, _, rfl⟩
      · cases h
    | sportsWalking =>
      rcases data with _ | ⟨a, _ | ⟨d, _ | ⟨w, _ | ⟨x, _ | ⟨y, tl⟩⟩⟩⟩⟩
      · cases h
      · cases h
      · cases h
      · cases h
      · injection h with h2
        subst h2
        exact ⟨Or.inr (Or.inl ⟨a, d, w, x, rfl⟩), _, rfl⟩
      · cases h
    | swimming =>
      rcases data with _ | ⟨a, _ | ⟨d, _ | ⟨w, _ | ⟨x, _ | ⟨y, _ | ⟨z, tl⟩⟩⟩⟩⟩⟩
      · cases h
      · cases h
      · cases h
      · cases h
      · cases h
      · injection h with h2
        subst h2
        exact ⟨Or.inr (Or.inr ⟨a, d, w, x, y, rfl⟩), _, rfl⟩
      · cases h

/-- C10 witness: the package `("WLK", [9000, 1, 75, 180])` yields a concrete
kind whose report construction succeeds. -/
theorem c10_read_package_kinds_witness :
    ((∃ a d w, Training.sportsWalking 9000 1 75 180 = Training.running a d w)
      ∨ (∃ a d w ht,
          Training.sportsWalking 9000 1 75 180 = Training.sportsWalking a d w ht)
      ∨ (∃ a d w l c,
          Training.sportsWalking 9000 1 75 180 = Training.swimming a d w l c))
    ∧ ∃ m, (Training.sportsWalking 9000 1 75 180).show_training_info = .ok m :=
  c10_read_package_kinds "WLK" [9000, 1, 75, 180]
    (Training.sportsWalking 9000 1 75 180) rfl
